import Mathlib

/-!
Verification development for the Spilo deployment-template generator
(`acid/senza/templates/base.py`): a shallow embedding of the
variable-resolution pipeline `gather_user_variables` and its helper
functions, together with theorems about the claims of the specification.

Python values stored in the configuration dictionary are modelled by the
inductive type `PyVal`; the dictionary itself by an insertion-ordered
association list (`Vars`), which matches CPython's dict semantics for
`setdefault`, item assignment and key iteration.  External collaborators
(AWS clients, the DNS resolver, `urllib`, the pricing catalog, random
password generation) are supplied through an explicit environment `Env`;
everything else is translated from the source.  Python floats appearing
in the pricing path are modelled as rationals.
-/

namespace Spilo

/-- A Python value as it occurs in the `variables` dictionary of the
template: `None`, strings, booleans, integers, floats (modelled as
rationals) and lists of strings. -/
inductive PyVal where
  | none
  | str (s : String)
  | bool (b : Bool)
  | int (n : Int)
  | rat (q : ℚ)
  | strList (l : List String)
  deriving DecidableEq

/-- Python truthiness of a stored value. -/
def pyTruthy : PyVal → Bool
  | .none => false
  | .str s => s != ""
  | .bool b => b
  | .int n => n != 0
  | .rat q => q != 0
  | .strList l => !l.isEmpty

/-- Python's `x == 0` for a stored value (`False == 0` is true in Python). -/
def pyEqZero : PyVal → Bool
  | .int n => n == 0
  | .rat q => q == 0
  | .bool b => !b
  | _ => false

/-- Python's `x == s` between a stored value and a string. -/
def pyValEqStr (x : PyVal) (s : String) : Bool :=
  match x with
  | .str t => t == s
  | _ => false

/-- Rendering of a stored value by `str.format`; the float and list cases
are approximations (no claim depends on them). -/
def pyStr : PyVal → String
  | .none => "None"
  | .str s => s
  | .bool b => if b then "True" else "False"
  | .int n => toString n
  | .rat q => toString q
  | .strList l => toString l

/-- The configuration record: an insertion-ordered association list,
mirroring a CPython dict. -/
abbrev Vars := List (String × PyVal)

/-- First-match lookup, i.e. dict access on the model. -/
def lookup : Vars → String → Option PyVal
  | [], _ => Option.none
  | (k, x) :: rest, key => if k = key then some x else lookup rest key

/-- Dict item assignment: update the value in place if the key is present
(keeping its position), otherwise append the new entry. -/
def setVar : Vars → String → PyVal → Vars
  | [], key, x => [(key, x)]
  | (k, y) :: rest, key, x =>
      if k = key then (k, x) :: rest else (k, y) :: setVar rest key x

/-- `dict.setdefault`: insert the default only when the key is absent. -/
def setdefault (v : Vars) (key : String) (d : PyVal) : Vars :=
  match lookup v key with
  | some _ => v
  | Option.none => v ++ [(key, d)]

/-- Key presence in the record. -/
def hasKey (v : Vars) (k : String) : Bool :=
  (lookup v k).isSome

/-- Module-level constant `POSTGRES_PORT = 5432`. -/
def POSTGRES_PORT : Int := 5432

/-- Module-level constant `HEALTHCHECK_PORT = 8008`. -/
def HEALTHCHECK_PORT : Int := 8008

/-- Module-level constant `ODD_SG_GROUP_NAME_REGEX`. -/
def ODD_SG_GROUP_NAME_REGEX : String := "Odd.*"

/-- Module-level constant `ZMON_SG_GROUP_NAME_REGEX`. -/
def ZMON_SG_GROUP_NAME_REGEX : String := "app-zmon-db"

/-- The values that `set_default_variables` obtains from collaborators:
`get_latest_image()` and three `generate_random_password()` calls. -/
structure Gen where
  latest_image : String
  pw_admin : String
  pw_standby : String
  pw_superuser : String

/-- The ordered list of `(key, default)` pairs from the body of
`set_default_variables` (source lines 383-418). -/
def default_entries (g : Gen) : List (String × PyVal) :=
  [ ("version", .str "\x7b\x7bArguments.version\x7d\x7d"),
    ("team_name", .none),
    ("team_region", .none),
    ("team_gateway_zone", .none),
    ("add_replica_loadbalancer", .bool false),
    ("discovery_domain", .none),
    ("master_dns_name", .none),
    ("docker_image", .str g.latest_image),
    ("ebs_optimized", .none),
    ("fsoptions", .str "noatime,nodiratime,nobarrier"),
    ("fstype", .str "ext4"),
    ("healthcheck_port", .int HEALTHCHECK_PORT),
    ("hosted_zone", .none),
    ("instance_type", .str "m4.large"),
    ("number_of_instances", .int 3),
    ("ldap_url", .none),
    ("ldap_suffix", .none),
    ("kms_arn", .none),
    ("odd_sg_id", .none),
    ("pgpassword_admin", .str g.pw_admin),
    ("pgpassword_standby", .str g.pw_standby),
    ("pgpassword_superuser", .str g.pw_superuser),
    ("postgresqlconf", .none),
    ("postgres_port", .int POSTGRES_PORT),
    ("promotheus_port", .str "9100"),
    ("replica_dns_name", .none),
    ("snapshot_id", .none),
    ("use_ebs", .bool true),
    ("volume_iops", .none),
    ("volume_size", .int 50),
    ("volume_type", .str "gp2"),
    ("wal_s3_bucket", .none),
    ("zmon_sg_id", .none),
    ("use_spot_instances", .bool false),
    ("spot_price", .int 0) ]

/-- `set_default_variables`: one `setdefault` per recognized option, in
source order. -/
def set_default_variables (g : Gen) (vs : Vars) : Vars :=
  (default_entries g).foldl (fun acc p => setdefault acc p.1 p.2) vs

/-- Python's `s.endswith(suffix)`. -/
def pyEndsWith (s suffix : String) : Bool :=
  suffix.toList.isSuffixOf s.toList

/-- Python's `s[:-1]`. -/
def pyDropLast (s : String) : String :=
  String.mk s.toList.dropLast

/-- A run of `n` spaces (`' ' * n`). -/
def spaces (n : Nat) : String :=
  String.mk (List.replicate n ' ')

/-- Python's `s.replace('_', ' ')` for a single-character pattern. -/
def replaceUnderscores (s : String) : String :=
  String.mk (s.toList.map fun c => if c = '_' then ' ' else c)

/-- Python's whitespace test used by `str.strip()` (ASCII part). -/
def pyIsSpace (c : Char) : Bool :=
  c = ' ' || c = '\t' || c = '\n' || c = '\x0d' || c = '\x0b' || c = '\x0c'

/-- Python's `s.strip()`: drop whitespace from both ends. -/
def pyStripWs (s : String) : String :=
  String.mk (((s.toList.dropWhile pyIsSpace).reverse.dropWhile pyIsSpace).reverse)

/-- Python's `s.strip('\x7b\x7d')`: drop braces from both ends. -/
def pyStripBraces (s : String) : String :=
  String.mk (((s.toList.dropWhile fun c => c = '\x7b' || c = '\x7d').reverse.dropWhile
      fun c => c = '\x7b' || c = '\x7d').reverse)

/-- Prepend a character to the first piece of a split result. -/
def consHead (c : Char) : List (List Char) → List (List Char)
  | [] => [[c]]
  | h :: t => (c :: h) :: t

/-- Python's `str.split(sep, maxsplit)` over characters: split at the
separator at most `n` times, keeping the remainder intact. -/
def splitCharMax (sep : Char) : List Char → Nat → List (List Char)
  | [], _ => [[]]
  | c :: cs, 0 => [c :: cs]
  | c :: cs, Nat.succ n =>
      if c = sep then [] :: splitCharMax sep cs n
      else consHead c (splitCharMax sep cs (n + 1))

/-- Python's `opt.split(':', 2)`. -/
def pySplitColonMax2 (s : String) : List String :=
  (splitCharMax ':' s.toList 2).map String.mk

/-- Python's `str.split(sep)` without a split bound, over characters. -/
def splitChar (sep : Char) : List Char → List (List Char)
  | [] => [[]]
  | c :: cs => if c = sep then [] :: splitChar sep cs else consHead c (splitChar sep cs)

/-- Python's `s.split(sep)` for a one-character separator. -/
def pySplitOn (sep : Char) (s : String) : List String :=
  (splitChar sep s.toList).map String.mk

/-- Python's `sep.join(xs)`. -/
def joinWith (sep : String) : List String → String
  | [] => ""
  | [s] => s
  | s :: rest => s ++ sep ++ joinWith sep rest

/-- Substring test over characters (`needle in hay` for Python strings). -/
def listContainsSub (needle : List Char) : List Char → Bool
  | [] => needle.isEmpty
  | c :: cs => needle.isPrefixOf (c :: cs) || listContainsSub needle cs

/-- Python's `sub in s` for strings. -/
def strContainsSubstr (s sub : String) : Bool :=
  listContainsSub sub.toList s.toList

/-- `check_dns_name(name, hosted_zone)`: a raw `str.endswith` test
(source lines 519-526). -/
def check_dns_name (name hosted_zone : String) : Bool :=
  pyEndsWith name hosted_zone

/-- `ebs_optimized_supported(instance_type)`: membership in the fixed
tuple of instance types (source lines 365-379). -/
def ebs_optimized_supported (instance_type : String) : Bool :=
  instance_type ∈
    ["c1.large", "c3.xlarge", "c3.2xlarge", "c3.4xlarge",
     "c4.large", "c4.xlarge", "c4.2xlarge", "c4.4xlarge", "c4.8xlarge",
     "d2.xlarge", "d2.2xlarge", "d2.4xlarge", "d2.8xlarge",
     "g2.2xlarge", "i2.xlarge", "i2.2xlarge", "i2.4xlarge",
     "m1.large", "m1.xlarge", "m2.2xlarge", "m2.4xlarge",
     "m3.xlarge", "m3.2xlarge", "r3.xlarge", "r3.2xlarge",
     "r3.4xlarge"]

/-- The `'\n' + ' ' * 10` delimiter inside one ingress rule. -/
def INGRESS_DELIM : String := "\n" ++ spaces 10

/-- The text of a single ingress rule emitted by
`generate_spilo_master_security_group_ingress` for one address. -/
def ingress_rule (addr : String) : String :=
  "- IpProtocol: tcp" ++ INGRESS_DELIM ++ "FromPort: " ++ toString POSTGRES_PORT ++
    INGRESS_DELIM ++ "ToPort: " ++ toString POSTGRES_PORT ++
    INGRESS_DELIM ++ "CidrIp: " ++ addr ++ "/32"

/-- `generate_spilo_master_security_group_ingress(addresses_to_allow)`
(source lines 547-554): the separator `'\n' + ' ' * 8` is inserted before
an item exactly when the item differs from `addresses_to_allow[0]`. -/
def generate_spilo_master_security_group_ingress
    (addresses_to_allow : List String) : String :=
  addresses_to_allow.foldl
    (fun result addr =>
      (if addresses_to_allow.head? ≠ some addr then result ++ "\n" ++ spaces 8
       else result) ++ ingress_rule addr)
    ""

/-- Error signals of the pipeline: `fatal` models `fatal_error` /
`act.fatal_error` from clickclick, `uncaught` models an ordinary Python
exception (`ValueError`, `TypeError`, ...) that no code catches. -/
inductive PyErr where
  | fatal (msg : String)
  | uncaught (msg : String)
  deriving DecidableEq

/-- Formatted `"key:  value"` chunk for one postgresql option. -/
def pg_format_kv (key value : String) : String :=
  pyStripWs key ++ ":  " ++ pyStripWs value

/-- One iteration of the loop in `generate_postgresql_configuration`:
separator placement compares the option with `options[0]`, then
`key, value = opt.split(':', 2)` raises `ValueError` unless the split
yields exactly two pieces. -/
def pg_format_option (options : List String) (result opt : String) :
    Except PyErr String :=
  match pySplitColonMax2 opt with
  | [key, value] =>
      .ok ((if options.head? ≠ some opt then result ++ "\n" ++ spaces 20
            else result) ++ pg_format_kv key value)
  | _ => .error (.uncaught "ValueError: unpack opt.split")

/-- The loop of `generate_postgresql_configuration` over the parsed
option list. -/
def render_pg_options (options : List String) : Except PyErr String :=
  options.foldlM (pg_format_option options) ""

/-- The parsing part of `generate_postgresql_configuration`:
`[t.strip() for t in postgresqlconf.strip('\x7b\x7d').split(',')]`. -/
def parse_pg_options (postgresqlconf : String) : List String :=
  (pySplitOn ',' (pyStripBraces postgresqlconf)).map pyStripWs

/-- `generate_postgresql_configuration(postgresqlconf)` (source lines
557-566), with the uncaught `ValueError` made explicit. -/
def generate_postgresql_configuration (postgresqlconf : String) :
    Except PyErr String :=
  render_pg_options (parse_pg_options postgresqlconf)

/-- Python's `s.startswith(prefix)`. -/
def pyStartsWith (s pre : String) : Bool :=
  pre.toList.isPrefixOf s.toList

/-- Python's `s.lower()`. -/
def pyLower (s : String) : String :=
  String.mk (s.toList.map Char.toLower)

/-- A security group as returned by `describe_security_groups`. -/
structure SecGroup where
  GroupName : String
  GroupId : String
  deriving DecidableEq

/-- A KMS key as returned by `list_kms_keys`. -/
structure KmsKey where
  KeyId : String
  Arn : String
  Description : String
  aliases : List String
  deriving DecidableEq

/-- `detect_security_group(region, sg_regex)` (source lines 660-670): the
`ec2.describe_security_groups()` listing and the `re.match` collaborator
are passed explicitly.  Zero filtered matches and more than one filtered
match are both fatal; the unique match's `GroupId` is returned. -/
def detect_security_group (rm : String → String → Bool) (sg_regex : String)
    (groups : List SecGroup) : Except PyErr String :=
  match groups.filter fun sg => rm sg_regex sg.GroupName with
  | [] => .error (.fatal ("Could not find security group which matches regex " ++ sg_regex))
  | [sg] => .ok sg.GroupId
  | _ :: _ :: _ => .error (.fatal ("More than one security group found for regex " ++ sg_regex))

/-- The key filter of source lines 491-492:
`'alias/aws/ebs' not in k['aliases'] and 'spilo' in k['Description'].lower()`. -/
def spiloKeyFilter (k : KmsKey) : Bool :=
  !(k.aliases.contains "alias/aws/ebs") && strContainsSubstr (pyLower k.Description) "spilo"

/-- The key selection of source lines 491-499: zero surviving keys is
fatal, otherwise `kms_keys[0]` is used. -/
def select_kms_key (keys : List KmsKey) : Except PyErr KmsKey :=
  match keys.filter spiloKeyFilter with
  | [] => .error (.fatal ("No KMS key is available for encrypting and decrypting. "
      ++ "Ensure you have at least 1 key available."))
  | k :: _ => .ok k

/-- The replica-name derivation of source lines 454-456: split the master
name on dots, append `-repl` to the first component, rejoin. -/
def derive_replica_name (master : String) : String :=
  match pySplitOn '.' master with
  | [] => ""
  | c :: rest => joinWith "." ((c ++ "-repl") :: rest)

/-- The external collaborators of `gather_user_variables`: the execution
context (current region, account alias), the AWS- and DNS-backed
discovery functions, `urllib`, the KMS client and the pricing catalog.
`re_match` abstracts Python's `re.match`. -/
structure Env where
  gen : Gen
  regionRegion : String
  account_alias : String
  urlparse_path : String → String
  discovery_domain : String → String → Except PyErr (Option String)
  nat_gateways : String → Except PyErr (List String)
  odd_instances : String → Except PyErr (List String)
  re_match : String → String → Bool
  security_groups : List SecGroup
  kms_keys : List KmsKey
  encrypt : String → String → String
  s3_check : String → String → Except PyErr Unit
  on_demand_price : String → String → Except PyErr ℚ

/-- Dict item access (`variables[key]`), raising `KeyError` when the key
is absent. -/
def getItem (v : Vars) (key : String) : Except PyErr PyVal :=
  match lookup v key with
  | some x => .ok x
  | Option.none => .error (.uncaught ("KeyError: " ++ key))

/-- Result of normalizing one zone value (append a dot unless the last
character already is one). -/
def normalize_zone (s : String) : String :=
  match s.toList.getLast? with
  | some c => if c = '.' then s else s ++ "."
  | Option.none => s

/-- Source lines 427-432: collect every required name whose value is
falsy and fail fatally with the joined list. -/
def step_required (v : Vars) : Except PyErr Vars :=
  let missing := ["team_name", "team_region", "team_gateway_zone", "hosted_zone"].filter
    fun k => !pyTruthy ((lookup v k).getD PyVal.none)
  if missing.isEmpty then .ok v
  else .error (.fatal ("Missing values for the following variables: "
    ++ joinWith ", " missing))

/-- Source lines 435-438: the requested team region must equal the
current execution region. -/
def step_region (env : Env) (v : Vars) : Except PyErr Vars := do
  let tr ← getItem v "team_region"
  if pyValEqStr tr env.regionRegion then .ok v
  else .error (.fatal ("Current region " ++ env.regionRegion
    ++ " do not match the requested region " ++ pyStr tr
    ++ "\nChange the currect region with --region option or set AWS_DEFAULT_REGION variable."))

/-- Source line 440: derive the wal bucket name from account alias and
region. -/
def step_wal (env : Env) (v : Vars) : Except PyErr Vars :=
  .ok (setVar v "wal_s3_bucket"
    (.str (env.account_alias ++ "-" ++ env.regionRegion ++ "-spilo-dbaas")))

/-- Source lines 442-444, one field: append a trailing dot when the last
character is not already a dot (`variables[name][-1] != '.'`). -/
def normalize_zone_var (v : Vars) (name : String) : Except PyErr Vars := do
  let x ← getItem v name
  match x with
  | .str s =>
      match s.toList.getLast? with
      | some c =>
          if c ≠ '.' then .ok (setVar v name (.str (s ++ ".")))
          else .ok v
      | Option.none => .error (.uncaught "IndexError: string index out of range")
  | _ => .error (.uncaught "TypeError: string index on a non-string")

/-- Source lines 442-444: normalize `team_gateway_zone`, then
`hosted_zone`. -/
def step_normalize (v : Vars) : Except PyErr Vars :=
  normalize_zone_var v "team_gateway_zone" >>= fun v => normalize_zone_var v "hosted_zone"

/-- Source lines 447-450: extract the LDAP suffix from the URL path. -/
def step_ldap_parse (env : Env) (v : Vars) : Except PyErr Vars := do
  let lu ← getItem v "ldap_url"
  if pyTruthy lu then
    match lu with
    | .str s =>
        let path := env.urlparse_path s
        if path ≠ "" ∧ path.toList.head? = some '/' then
          .ok (setVar v "ldap_suffix" (.str (String.mk (path.toList.drop 1))))
        else .ok v
    | _ => .error (.uncaught "AttributeError: urlparse on a non-string")
  else .ok v

/-- Source lines 452-456: derive the replica DNS name from the master
name when the master is set and the replica is not. -/
def step_derive_replica (v : Vars) : Except PyErr Vars := do
  let m ← getItem v "master_dns_name"
  if pyTruthy m then do
    let r ← getItem v "replica_dns_name"
    if pyTruthy r then .ok v
    else
      match m with
      | .str s => .ok (setVar v "replica_dns_name" (.str (derive_replica_name s)))
      | _ => .error (.uncaught "AttributeError: split on a non-string")
  else .ok v

/-- Source lines 458-462, one field: a truthy DNS name must satisfy
`check_dns_name(value, hosted_zone[:-1])`, else fail fatally. -/
def dns_check_var (v : Vars) (name : String) : Except PyErr Vars := do
  let x ← getItem v name
  if pyTruthy x then do
    let hz ← getItem v "hosted_zone"
    match x, hz with
    | .str s, .str z =>
        if check_dns_name s (pyDropLast z) then .ok v
        else .error (.fatal (replaceUnderscores name ++ " should end with " ++ pyDropLast z))
    | _, _ => .error (.uncaught "TypeError: endswith on a non-string")
  else .ok v

/-- Source lines 458-462: validate `master_dns_name`, then
`replica_dns_name`. -/
def step_dns_check (v : Vars) : Except PyErr Vars :=
  dns_check_var v "master_dns_name" >>= fun v => dns_check_var v "replica_dns_name"

/-- Source lines 464-466: an LDAP URL without a derivable suffix is
fatal. -/
def step_ldap_check (v : Vars) : Except PyErr Vars := do
  let lu ← getItem v "ldap_url"
  if pyTruthy lu then do
    let ls ← getItem v "ldap_suffix"
    if pyTruthy ls then .ok v
    else .error (.fatal ("LDAP URL is missing the suffix: shoud be in a format: "
      ++ "ldap[s]://example.com[:port]/ou=people,dc=example,dc=com"))
  else .ok v

/-- Source lines 469-470: resolve the etcd discovery domain (the
AWS-backed lookup is a collaborator; its `None` result is stored as
`None`). -/
def step_discovery (env : Env) (v : Vars) : Except PyErr Vars := do
  let hz ← getItem v "hosted_zone"
  let d ← env.discovery_domain (pyStr hz) env.regionRegion
  .ok (setVar v "discovery_domain" (match d with
    | some s => .str s
    | Option.none => .none))

/-- Source lines 473-477: collect NAT gateway and odd-host addresses and
render the ingress-rule block from their concatenation. -/
def step_addresses (env : Env) (v : Vars) : Except PyErr Vars := do
  let gz ← getItem v "team_gateway_zone"
  let nat ← env.nat_gateways (pyStr gz)
  let odd ← env.odd_instances (pyStr gz)
  let v := setVar v "nat_gateway_addresses" (.strList nat)
  let v := setVar v "odd_instance_addresses" (.strList odd)
  .ok (setVar v "spilo_security_group_ingress_rules_block"
    (.str (generate_spilo_master_security_group_ingress (nat ++ odd))))

/-- Source lines 479-480: render a supplied postgresql configuration
fragment in place. -/
def step_pgconf (v : Vars) : Except PyErr Vars := do
  let pc ← getItem v "postgresqlconf"
  if pyTruthy pc then
    match pc with
    | .str s => do
        let r ← generate_postgresql_configuration s
        .ok (setVar v "postgresqlconf" (.str r))
    | _ => .error (.uncaught "AttributeError: strip on a non-string")
  else .ok v

/-- Source lines 482-483: resolve the odd and zmon security groups. -/
def step_sgs (env : Env) (v : Vars) : Except PyErr Vars := do
  let o ← detect_security_group env.re_match ODD_SG_GROUP_NAME_REGEX env.security_groups
  let z ← detect_security_group env.re_match ZMON_SG_GROUP_NAME_REGEX env.security_groups
  .ok (setVar (setVar v "odd_sg_id" (.str o)) "zmon_sg_id" (.str z))

/-- Source lines 485-487: default the provisioned IOPS for `io1` volumes
to 30 times the volume size (a float-valued `volume_size`, legal but
unused in practice, is outside the model). -/
def step_iops (v : Vars) : Except PyErr Vars := do
  let vt ← getItem v "volume_type"
  if pyValEqStr vt "io1" then do
    let vi ← getItem v "volume_iops"
    if pyTruthy vi then .ok v
    else do
      let vs ← getItem v "volume_size"
      match vs with
      | .int n => .ok (setVar v "volume_iops" (.str (toString (n * 30))))
      | .bool b => .ok (setVar v "volume_iops" (.str (toString ((if b then (1 : Int) else 0) * 30))))
      | .str s => .ok (setVar v "volume_iops" (.str (joinWith "" (List.replicate 30 s))))
      | _ => .error (.uncaught "TypeError: unsupported volume_size")
  else .ok v

/-- Source line 488: record EBS-optimization eligibility. -/
def step_ebs (v : Vars) : Except PyErr Vars := do
  let it ← getItem v "instance_type"
  .ok (setVar v "ebs_optimized" (.bool (match it with
    | .str s => ebs_optimized_supported s
    | _ => false)))

/-- Source lines 502-504: encrypt every `pgpassword_`-prefixed value with
the selected key, tagging the ciphertext. -/
def encryptAll (env : Env) (keyid : String) : List String → Vars → Except PyErr Vars
  | [], v => .ok v
  | key :: rest, v => do
      let x ← getItem v key
      match x with
      | .str s =>
          encryptAll env keyid rest
            (setVar v key (.str ("aws:kms:" ++ env.encrypt keyid s)))
      | _ => .error (.uncaught "TypeError: plaintext is not a string")

/-- Source lines 491-504: select the spilo KMS key, record its ARN and
encrypt the password fields (in dict key order). -/
def step_kms (env : Env) (v : Vars) : Except PyErr Vars := do
  let k ← select_kms_key env.kms_keys
  let v := setVar v "kms_arn" (.str k.Arn)
  encryptAll env k.KeyId ((v.map Prod.fst).filter fun s => pyStartsWith s "pgpassword_") v

/-- Source line 506: verify the wal bucket via the collaborator. -/
def step_s3 (env : Env) (v : Vars) : Except PyErr Vars := do
  let b ← getItem v "wal_s3_bucket"
  let _ ← env.s3_check (pyStr b) env.regionRegion
  .ok v

/-- Source lines 508-514: when spot instances are requested and no spot
price was given, price the instance on demand; a zero price is fatal,
otherwise the spot price is 1.2 times the on-demand price. -/
def step_spot (env : Env) (v : Vars) : Except PyErr Vars := do
  let us ← getItem v "use_spot_instances"
  if pyTruthy us then do
    let sp ← getItem v "spot_price"
    if pyEqZero sp then do
      let tr ← getItem v "team_region"
      let it ← getItem v "instance_type"
      let p ← env.on_demand_price (pyStr tr) (pyStr it)
      if p = 0 then
        .error (.fatal "Could not get the correct on-demand price, try running without use_spot_instances")
      else .ok (setVar v "spot_price" (.rat (p * 1.2)))
    else .ok v
  else .ok v

/-- The pipeline prefix up to (but excluding) the replica-name
derivation: defaults, required check, region check, wal bucket, zone
normalization, LDAP parsing (source lines 425-450). -/
def gather_before_derive (env : Env) (v : Vars) : Except PyErr Vars :=
  step_required (set_default_variables env.gen v) >>= step_region env >>=
    step_wal env >>= step_normalize >>= step_ldap_parse env

/-- The pipeline segment after the DNS checks and before the spot-price
step (source lines 464-506). -/
def gather_mid (env : Env) (v : Vars) : Except PyErr Vars :=
  step_ldap_check v >>= step_discovery env >>= step_addresses env >>=
    step_pgconf >>= step_sgs env >>= step_iops >>= step_ebs >>=
    step_kms env >>= step_s3 env

/-- The pipeline up to (but excluding) the spot-price step (source lines
425-506). -/
def gather_pre_spot (env : Env) (v : Vars) : Except PyErr Vars :=
  gather_before_derive env v >>= step_derive_replica >>= step_dns_check >>=
    gather_mid env

/-- `gather_user_variables(variables, account_info, region)` (source
lines 423-516) as the sequential composition of its steps. -/
def gather_user_variables (env : Env) (v : Vars) : Except PyErr Vars :=
  gather_pre_spot env v >>= step_spot env

/-- The value of a string field ends with exactly one trailing dot. -/
def endsWithSingleDot (s : String) : Bool :=
  pyEndsWith s "." && !pyEndsWith s ".."

/-- Collaborator results for a concrete happy-path run. -/
def testGen : Gen :=
  ⟨"registry.opensource.zalan.do/acid/spilo-9.5:1.0", "PWADMIN", "PWSTANDBY", "PWSUPER"⟩

/-- A model of `re.match` adequate for the two concrete patterns the
template passes to `detect_security_group`. -/
def pyReMatchModel (pat name : String) : Bool :=
  if pat = "Odd.*" then pyStartsWith name "Odd" else pyStartsWith name pat

/-- A concrete collaborator environment on which every discovery step
succeeds. -/
def happyEnv : Env where
  gen := testGen
  regionRegion := "eu-west-1"
  account_alias := "acme"
  urlparse_path := fun _ => ""
  discovery_domain := fun _ _ => .ok (some "west.zone.com")
  nat_gateways := fun _ => .ok ["1.2.3.4"]
  odd_instances := fun _ => .ok ["5.6.7.8"]
  re_match := pyReMatchModel
  security_groups := [⟨"Odd-instance", "sg-odd"⟩, ⟨"app-zmon-db", "sg-zmon"⟩]
  kms_keys := [⟨"key-1", "arn:aws:kms:key-1", "Spilo encryption key", []⟩]
  encrypt := fun _ s => "ENC." ++ s
  s3_check := fun _ _ => .ok ()
  on_demand_price := fun _ _ => .ok 1

/-- A user record whose master DNS name merely shares the hosted zone's
character suffix without a dot boundary. -/
def dnsTestVars : Vars :=
  [("team_name", .str "acid"), ("team_region", .str "eu-west-1"),
   ("team_gateway_zone", .str "gw.zone."), ("hosted_zone", .str "zone.com."),
   ("master_dns_name", .str "xzone.com"), ("replica_dns_name", .str "yzone.com")]

/-- The happy-path environment with a pricing catalog that reports a zero
on-demand price. -/
def zeroPriceEnv : Env :=
  { happyEnv with on_demand_price := fun _ _ => .ok 0 }

/-- A record requesting spot instances without an explicit spot price. -/
def spotVars : Vars :=
  [("team_name", .str "acid"), ("team_region", .str "eu-west-1"),
   ("team_gateway_zone", .str "gw.zone."), ("hosted_zone", .str "zone.com."),
   ("use_spot_instances", .bool true)]

/-- A record deriving its replica name from a master name equal to the
hosted zone apex, so that the derived name falls outside the zone. -/
def deriveVars : Vars :=
  [("team_name", .str "acid"), ("team_region", .str "eu-west-1"),
   ("team_gateway_zone", .str "gw.zone."), ("hosted_zone", .str "team.zone."),
   ("master_dns_name", .str "team.zone")]

theorem lookup_setVar_self (v : Vars) (k : String) (x : PyVal) :
    lookup (setVar v k x) k = some x := by
  induction v with
  | nil => simp [setVar, lookup]
  | cons p rest ih =>
      obtain ⟨k₀, y⟩ := p
      by_cases h : k₀ = k
      · simp [setVar, h, lookup]
      · simp [setVar, h, lookup, ih]

theorem lookup_setVar_ne (v : Vars) (k k₂ : String) (x : PyVal) (h : k₂ ≠ k) :
    lookup (setVar v k x) k₂ = lookup v k₂ := by
  induction v with
  | nil => simp [setVar, lookup, Ne.symm h]
  | cons p rest ih =>
      obtain ⟨k₀, y⟩ := p
      by_cases hp : k₀ = k
      · have hk₂ : k₀ ≠ k₂ := by
          rw [hp]; exact Ne.symm h
        simp [setVar, hp, lookup, Ne.symm h, hk₂]
      · by_cases hq : k₀ = k₂
        · simp [setVar, hp, lookup, hq, h]
        · simp [setVar, hp, lookup, hq, ih]

theorem setVar_eq_self (v : Vars) (k : String) (x : PyVal)
    (h : lookup v k = some x) : setVar v k x = v := by
  induction v with
  | nil => simp [lookup] at h
  | cons p rest ih =>
      obtain ⟨k₀, y⟩ := p
      by_cases hp : k₀ = k
      · simp_all [lookup, setVar]
      · simp_all [lookup, setVar]

theorem lookup_append_of_some {v : Vars} {k : String} {x : PyVal} (w : Vars)
    (h : lookup v k = some x) : lookup (v ++ w) k = some x := by
  induction v with
  | nil => simp [lookup] at h
  | cons p rest ih =>
      obtain ⟨k₀, y⟩ := p
      by_cases hp : k₀ = k
      · simp_all [lookup]
      · simp_all [lookup]

theorem lookup_append_of_none {v : Vars} {k : String} (w : Vars)
    (h : lookup v k = Option.none) : lookup (v ++ w) k = lookup w k := by
  induction v with
  | nil => simp [lookup]
  | cons p rest ih =>
      obtain ⟨k₀, y⟩ := p
      by_cases hp : k₀ = k
      · simp_all [lookup]
      · simp_all [lookup]

theorem hasKey_setdefault_self (v : Vars) (k : String) (d : PyVal) :
    hasKey (setdefault v k d) k = true := by
  unfold setdefault
  cases h : lookup v k with
  | some x => simp [hasKey, h]
  | none =>
      have := lookup_append_of_none (v := v) (k := k) [(k, d)] h
      simp [hasKey, this, lookup]

theorem hasKey_setdefault_mono (v : Vars) (k k₂ : String) (d : PyVal)
    (h : hasKey v k₂ = true) : hasKey (setdefault v k d) k₂ = true := by
  unfold setdefault
  cases hl : lookup v k with
  | some x => simpa [hasKey] using h
  | none =>
      simp only [hasKey, Option.isSome_iff_exists] at h ⊢
      obtain ⟨x, hx⟩ := h
      exact ⟨x, lookup_append_of_some _ hx⟩

theorem lookup_setdefault_of_some {v : Vars} {k k₂ : String} {x : PyVal}
    (d : PyVal) (h : lookup v k₂ = some x) :
    lookup (setdefault v k d) k₂ = some x := by
  unfold setdefault
  cases hl : lookup v k with
  | some y => exact h
  | none => exact lookup_append_of_some _ h

theorem setdefault_of_hasKey {v : Vars} {k : String} (d : PyVal)
    (h : hasKey v k = true) : setdefault v k d = v := by
  unfold setdefault
  cases hl : lookup v k with
  | some x => rfl
  | none => simp [hasKey, hl] at h

theorem hasKey_foldl_setdefault_mono (L : List (String × PyVal)) (v : Vars)
    (k : String) (h : hasKey v k = true) :
    hasKey (L.foldl (fun acc p => setdefault acc p.1 p.2) v) k = true := by
  induction L generalizing v with
  | nil => exact h
  | cons p L ih => exact ih _ (hasKey_setdefault_mono _ _ _ _ h)

theorem hasKey_foldl_setdefault_of_mem (L : List (String × PyVal)) (v : Vars)
    (k : String) (h : k ∈ L.map Prod.fst) :
    hasKey (L.foldl (fun acc p => setdefault acc p.1 p.2) v) k = true := by
  induction L generalizing v with
  | nil => simp at h
  | cons p L ih =>
      simp only [List.map_cons, List.mem_cons] at h
      rcases h with h | h
      · subst h
        exact hasKey_foldl_setdefault_mono L _ _ (hasKey_setdefault_self _ _ _)
      · exact ih _ h

theorem foldl_setdefault_of_all_hasKey (L : List (String × PyVal)) (v : Vars)
    (h : ∀ k ∈ L.map Prod.fst, hasKey v k = true) :
    L.foldl (fun acc p => setdefault acc p.1 p.2) v = v := by
  induction L with
  | nil => rfl
  | cons p L ih =>
      have h₁ : hasKey v p.1 = true := h p.1 (by simp)
      have h₂ := setdefault_of_hasKey p.2 h₁
      simp only [List.foldl_cons, h₂]
      exact ih fun k hk => h k (by simp [hk])

theorem lookup_foldl_setdefault_of_some (L : List (String × PyVal)) {v : Vars}
    {k : String} {x : PyVal} (h : lookup v k = some x) :
    lookup (L.foldl (fun acc p => setdefault acc p.1 p.2) v) k = some x := by
  induction L generalizing v with
  | nil => exact h
  | cons p L ih => exact ih (lookup_setdefault_of_some _ h)

theorem default_entries_keys (g g₂ : Gen) :
    (default_entries g).map Prod.fst = (default_entries g₂).map Prod.fst := rfl

/-- C6: variable defaulting is idempotent (even when the second run
generates different passwords or discovers a different latest image) and
never overwrites a key that is already present. -/
theorem C6_set_default_variables_idempotent_no_overwrite :
    (∀ (g g₂ : Gen) (v : Vars),
       set_default_variables g₂ (set_default_variables g v) =
         set_default_variables g v)
    ∧ (∀ (g : Gen) (v : Vars) (k : String) (x : PyVal),
         lookup v k = some x →
         lookup (set_default_variables g v) k = some x) := by
  constructor
  · intro g g₂ v
    unfold set_default_variables
    refine foldl_setdefault_of_all_hasKey _ _ ?_
    intro k hk
    rw [default_entries_keys g₂ g] at hk
    exact hasKey_foldl_setdefault_of_mem _ _ _ hk
  · intro g v k x h
    exact lookup_foldl_setdefault_of_some _ h

/-- Witness for C6: a pre-existing `team_name` entry survives defaulting
with its original value. -/
theorem C6_witness :
    lookup (set_default_variables ⟨"img", "a", "b", "c"⟩
      [("team_name", PyVal.str "acid")]) "team_name" =
      some (PyVal.str "acid") :=
  C6_set_default_variables_idempotent_no_overwrite.2
    ⟨"img", "a", "b", "c"⟩ [("team_name", PyVal.str "acid")]
    "team_name" (PyVal.str "acid") rfl

theorem str_empty_append (s : String) : "" ++ s = s := rfl

theorem exc_ok_bind {α β : Type} (a : α) (f : α → Except PyErr β) :
    (Except.ok a >>= f) = f a := rfl

theorem exc_err_bind {α β : Type} (e : PyErr) (f : α → Except PyErr β) :
    ((Except.error e : Except PyErr α) >>= f) = Except.error e := rfl

/-- C5: the ingress-rule renderer on lists of zero, one and two
addresses, and the shape of every emitted rule (port twice, `/32`
suffix). -/
theorem C5_ingress_rules_shape :
    generate_spilo_master_security_group_ingress [] = ""
    ∧ (∀ a, generate_spilo_master_security_group_ingress [a] = ingress_rule a)
    ∧ (∀ a b, a ≠ b →
        generate_spilo_master_security_group_ingress [a, b] =
          ingress_rule a ++ "\n" ++ spaces 8 ++ ingress_rule b)
    ∧ (∀ a, ingress_rule a =
        "- IpProtocol: tcp\n          FromPort: 5432\n          ToPort: 5432\n          CidrIp: "
          ++ a ++ "/32") := by
  refine ⟨rfl, ?_, ?_, ?_⟩
  · intro a
    simp [generate_spilo_master_security_group_ingress, str_empty_append]
  · intro a b hab
    simp [generate_spilo_master_security_group_ingress, hab, str_empty_append]
  · intro a
    unfold ingress_rule
    have h : ("- IpProtocol: tcp" ++ INGRESS_DELIM ++ "FromPort: " ++
        toString POSTGRES_PORT ++ INGRESS_DELIM ++ "ToPort: " ++
        toString POSTGRES_PORT ++ INGRESS_DELIM ++ "CidrIp: ") =
        "- IpProtocol: tcp\n          FromPort: 5432\n          ToPort: 5432\n          CidrIp: " := by
      rfl
    rw [h]

/-- Witness for C5: the two-element case at concrete distinct
addresses. -/
theorem C5_witness :
    generate_spilo_master_security_group_ingress ["10.0.0.1", "10.0.0.2"] =
      ingress_rule "10.0.0.1" ++ "\n" ++ spaces 8 ++ ingress_rule "10.0.0.2" :=
  C5_ingress_rules_shape.2.2.1 "10.0.0.1" "10.0.0.2" (by decide)

/-- C9: in both block builders the separator decision compares the item
with the first element of the list, so a later repetition of the first
element is glued onto the previous rule without a separator. -/
theorem C9_separator_compares_value_not_position :
    (∀ a b, a ≠ b →
       generate_spilo_master_security_group_ingress [a, b, a] =
         ingress_rule a ++ "\n" ++ spaces 8 ++ ingress_rule b ++ ingress_rule a)
    ∧ (∀ o₁ o₂ k₁ v₁ k₂ v₂, o₁ ≠ o₂ →
        pySplitColonMax2 o₁ = [k₁, v₁] → pySplitColonMax2 o₂ = [k₂, v₂] →
        render_pg_options [o₁, o₂, o₁] =
          .ok (pg_format_kv k₁ v₁ ++ "\n" ++ spaces 20 ++ pg_format_kv k₂ v₂
            ++ pg_format_kv k₁ v₁))
    ∧ generate_postgresql_configuration "\x7ba: 1, b: 2, a: 1\x7d" =
        .ok "a:  1\n                    b:  2a:  1" := by
  refine ⟨?_, ?_, by rfl⟩
  · intro a b hab
    simp [generate_spilo_master_security_group_ingress, hab, str_empty_append]
  · intro o₁ o₂ k₁ v₁ k₂ v₂ h h₁ h₂
    simp [render_pg_options, List.foldlM, pg_format_option, h₁, h₂, h,
      str_empty_append, exc_ok_bind]

/-- Witness for C9: a concrete list with the first address repeated. -/
theorem C9_witness :
    generate_spilo_master_security_group_ingress ["1.1.1.1", "2.2.2.2", "1.1.1.1"] =
      ingress_rule "1.1.1.1" ++ "\n" ++ spaces 8 ++ ingress_rule "2.2.2.2"
        ++ ingress_rule "1.1.1.1" :=
  C9_separator_compares_value_not_position.1 "1.1.1.1" "2.2.2.2" (by decide)

theorem splitCharMax_ne_nil (sep : Char) (l : List Char) (n : Nat) :
    splitCharMax sep l n ≠ [] := by
  cases l with
  | nil => simp [splitCharMax]
  | cons c cs =>
      cases n with
      | zero => simp [splitCharMax]
      | succ n =>
          by_cases h : c = sep
          · simp [splitCharMax, h]
          · simp only [splitCharMax, if_neg h]
            cases splitCharMax sep cs (n + 1) with
            | nil => simp [consHead]
            | cons p ps => simp [consHead]

theorem length_consHead (c : Char) (L : List (List Char)) (h : L ≠ []) :
    (consHead c L).length = L.length := by
  cases L with
  | nil => exact absurd rfl h
  | cons p ps => simp [consHead]

theorem splitCharMax_length (sep : Char) (l : List Char) (n : Nat) :
    (splitCharMax sep l n).length = min (l.count sep) n + 1 := by
  induction l generalizing n with
  | nil => simp [splitCharMax]
  | cons c cs ih =>
      cases n with
      | zero => simp [splitCharMax]
      | succ n =>
          by_cases h : c = sep
          · subst h
            simp [splitCharMax, List.count_cons, ih, Nat.succ_min_succ]
          · have hne : (c == sep) = false := by simp [h]
            simp [splitCharMax, h, length_consHead _ _ (splitCharMax_ne_nil sep cs (n + 1)),
              ih, List.count_cons, hne]

theorem pySplitColonMax2_length (s : String) :
    (pySplitColonMax2 s).length = min (s.toList.count ':') 2 + 1 := by
  simp [pySplitColonMax2, splitCharMax_length]

theorem pySplitColonMax2_pair_iff (s : String) :
    (∃ k v, pySplitColonMax2 s = [k, v]) ↔ s.toList.count ':' = 1 := by
  constructor
  · rintro ⟨k, v, h⟩
    have := pySplitColonMax2_length s
    rw [h] at this
    simp only [List.length_cons, List.length_nil] at this
    omega
  · intro h
    have hlen := pySplitColonMax2_length s
    rw [h] at hlen
    match hs : pySplitColonMax2 s with
    | [] => rw [hs] at hlen; simp at hlen
    | [k] => rw [hs] at hlen; simp at hlen
    | [k, v] => exact ⟨k, v, rfl⟩
    | k :: v :: w :: rest => rw [hs] at hlen; simp at hlen

theorem pg_format_option_ok (opts0 : List String) (acc o : String)
    (h : o.toList.count ':' = 1) :
    ∃ s, pg_format_option opts0 acc o = .ok s := by
  obtain ⟨k, v, hkv⟩ := (pySplitColonMax2_pair_iff o).2 h
  exact ⟨_, by unfold pg_format_option; rw [hkv]⟩

theorem pg_format_option_err (opts0 : List String) (acc o : String)
    (h : o.toList.count ':' ≠ 1) :
    pg_format_option opts0 acc o = .error (.uncaught "ValueError: unpack opt.split") := by
  have hlen := pySplitColonMax2_length o
  have hne : (pySplitColonMax2 o).length ≠ 2 := by
    intro hcon
    rw [hcon] at hlen
    have : o.toList.count ':' = 1 := by omega
    exact h this
  match hs : pySplitColonMax2 o with
  | [] => simp [pg_format_option, hs]
  | [k] => simp [pg_format_option, hs]
  | [k, v] => rw [hs] at hne; simp at hne
  | k :: v :: w :: rest => simp [pg_format_option, hs]

theorem render_ok_of_all_single_colon (opts0 : List String) (acc : String)
    (l : List String) (h : ∀ o ∈ l, o.toList.count ':' = 1) :
    ∃ s, List.foldlM (pg_format_option opts0) acc l = .ok s := by
  induction l generalizing acc with
  | nil => exact ⟨acc, rfl⟩
  | cons o rest ih =>
      obtain ⟨s, hs⟩ := pg_format_option_ok opts0 acc o (h o (by simp))
      obtain ⟨t, ht⟩ := ih s fun o' ho' => h o' (by simp [ho'])
      refine ⟨t, ?_⟩
      simp only [List.foldlM_cons, hs, exc_ok_bind]
      exact ht

theorem render_err_of_bad (opts0 : List String) (acc : String)
    (l : List String) (o : String) (ho : o ∈ l)
    (hbad : o.toList.count ':' ≠ 1) :
    List.foldlM (pg_format_option opts0) acc l =
      .error (.uncaught "ValueError: unpack opt.split") := by
  induction l generalizing acc with
  | nil => simp at ho
  | cons o' rest ih =>
      rcases List.mem_cons.1 ho with h | h
      · subst h
        simp [List.foldlM_cons, pg_format_option_err opts0 acc o hbad, exc_err_bind]
      · cases hfo : pg_format_option opts0 acc o' with
        | ok s =>
            simp only [List.foldlM_cons, hfo, exc_ok_bind]
            exact ih s h
        | error e =>
            have : e = .uncaught "ValueError: unpack opt.split" := by
              by_cases hc : o'.toList.count ':' = 1
              · obtain ⟨s, hs⟩ := pg_format_option_ok opts0 acc o' hc
                rw [hfo] at hs
                exact absurd hs (by simp)
              · have := pg_format_option_err opts0 acc o' hc
                rw [hfo] at this
                simpa using this
            subst this
            simp [List.foldlM_cons, hfo, exc_err_bind]

/-- C10: the configuration-block renderer succeeds exactly when every
comma-separated segment carries exactly one colon, and its failure is an
uncaught `ValueError`, not the pipeline's `fatal_error` signal; a value
containing a colon therefore also makes it fail. -/
theorem C10_pg_configuration_colon_domain :
    (∀ pgconf : String,
       ((∀ o ∈ parse_pg_options pgconf, o.toList.count ':' = 1) →
          ∃ s, generate_postgresql_configuration pgconf = .ok s)
       ∧ ((∃ o ∈ parse_pg_options pgconf, o.toList.count ':' ≠ 1) →
            generate_postgresql_configuration pgconf =
              .error (.uncaught "ValueError: unpack opt.split")))
    ∧ generate_postgresql_configuration "\x7ba: 1, b: 2\x7d" =
        .ok "a:  1\n                    b:  2"
    ∧ generate_postgresql_configuration "\x7btime: 12:30\x7d" =
        .error (.uncaught "ValueError: unpack opt.split") := by
  refine ⟨fun pgconf => ⟨?_, ?_⟩, by rfl, by rfl⟩
  · intro h
    exact render_ok_of_all_single_colon _ "" _ h
  · rintro ⟨o, ho, hbad⟩
    exact render_err_of_bad _ "" _ o ho hbad

/-- Witness for C10: a well-formed fragment renders, a colon-bearing
value raises. -/
theorem C10_witness :
    (∃ s, generate_postgresql_configuration "\x7bwork_mem: 64MB\x7d" = .ok s)
    ∧ generate_postgresql_configuration "\x7blog_timezone: UTC+1:00\x7d" =
        .error (.uncaught "ValueError: unpack opt.split") :=
  ⟨(C10_pg_configuration_colon_domain.1 "\x7bwork_mem: 64MB\x7d").1 (by decide),
   (C10_pg_configuration_colon_domain.1 "\x7blog_timezone: UTC+1:00\x7d").2
     ⟨"log_timezone: UTC+1:00", by decide, by decide⟩⟩

theorem pyTruthy_str_iff (s : String) : pyTruthy (.str s) = true ↔ s ≠ "" := by
  simp [pyTruthy]

theorem string_of_toList_nil {s : String} (h : s.toList = []) : s = "" := by
  cases s with
  | mk data => cases data with
    | nil => rfl
    | cons c cs => simp [String.toList] at h

theorem normalize_zone_var_spec {v : Vars} {name s : String}
    (hlk : lookup v name = some (.str s)) (hne : s ≠ "") :
    normalize_zone_var v name = .ok (setVar v name (.str (normalize_zone s))) := by
  cases hl : s.toList.getLast? with
  | none =>
      exact absurd (string_of_toList_nil (List.getLast?_eq_none_iff.1 hl)) hne
  | some c =>
      have hd : s.data.getLast? = some c := hl
      by_cases hc : c = '.'
      · have hnz : normalize_zone s = s := by
          simp [normalize_zone, String.toList, hd, hc]
        rw [hnz, setVar_eq_self v name (.str s) hlk]
        simp [normalize_zone_var, getItem, hlk, String.toList, hd, hc, exc_ok_bind]
      · have hnz : normalize_zone s = s ++ "." := by
          simp [normalize_zone, String.toList, hd, hc]
        rw [hnz]
        simp [normalize_zone_var, getItem, hlk, String.toList, hd, hc, exc_ok_bind]

theorem str_data_append (s t : String) : (s ++ t).toList = s.toList ++ t.toList := rfl

theorem suffix_of_getLast {l : List Char} {c : Char} (h : l.getLast? = some c) :
    [c].isSuffixOf l = true := by
  have hne : l ≠ [] := by
    rintro rfl; simp at h
  have hdc := List.dropLast_concat_getLast hne
  have hc : l.getLast hne = c := by
    rw [List.getLast?_eq_getLast l hne] at h
    exact Option.some.inj h
  rw [List.isSuffixOf_iff_suffix]
  exact ⟨l.dropLast, by rw [hc] at hdc; exact hdc⟩

theorem getLast_of_suffix_dot {s : String} (h : pyEndsWith s "." = true) :
    s.toList.getLast? = some '.' := by
  have h₂ : ['.'].isSuffixOf s.toList = true := h
  rw [List.isSuffixOf_iff_suffix] at h₂
  obtain ⟨t, ht⟩ := h₂
  rw [← ht]
  exact List.getLast?_concat _

theorem normalize_zone_of_dot {s : String} (h : pyEndsWith s "." = true) :
    normalize_zone s = s := by
  have hd : s.data.getLast? = some '.' := getLast_of_suffix_dot h
  simp [normalize_zone, String.toList, hd]

theorem normalize_zone_of_not_dot {s : String} (hne : s ≠ "")
    (h : pyEndsWith s "." = false) : normalize_zone s = s ++ "." := by
  cases hl : s.toList.getLast? with
  | none =>
      exact absurd (string_of_toList_nil (List.getLast?_eq_none_iff.1 hl)) hne
  | some c =>
      have hd : s.data.getLast? = some c := hl
      have hc : c ≠ '.' := by
        rintro rfl
        have htrue : pyEndsWith s "." = true := suffix_of_getLast hl
        rw [htrue] at h
        simp at h
      simp [normalize_zone, String.toList, hd, hc]

theorem normalize_zone_trailing_dot (s : String) (h : s ≠ "") :
    pyEndsWith (normalize_zone s) "." = true := by
  cases hl : s.toList.getLast? with
  | none =>
      exact absurd (string_of_toList_nil (List.getLast?_eq_none_iff.1 hl)) h
  | some c =>
      have hd : s.data.getLast? = some c := hl
      by_cases hc : c = '.'
      · subst hc
        have hnz : normalize_zone s = s := by simp [normalize_zone, String.toList, hd]
        rw [hnz]
        exact suffix_of_getLast hl
      · have hnz : normalize_zone s = s ++ "." := by
          simp [normalize_zone, String.toList, hd, hc]
        rw [hnz]
        refine suffix_of_getLast (c := '.') ?_
        rw [str_data_append]
        exact List.getLast?_concat _

/-- Counterexample for C2: a hosted zone already ending in two dots is
left untouched by the normalization step, so the stored value does not
end with the separator exactly once. -/
theorem C2_counterexample :
    step_normalize
      [("team_gateway_zone", PyVal.str "gw.example."),
       ("hosted_zone", PyVal.str "zone.com..")] =
      .ok [("team_gateway_zone", PyVal.str "gw.example."),
           ("hosted_zone", PyVal.str "zone.com..")]
    ∧ endsWithSingleDot "zone.com.." = false := by
  exact ⟨rfl, by decide⟩

/-- C2 (amended): normalization appends exactly one dot to a non-empty
zone value that does not already end with one, and stores any value
already ending with a dot unchanged; every stored value therefore ends
with at least one dot, but repeated trailing dots survive. -/
theorem C2_normalize_amended :
    ∀ (v : Vars) (gw hz : String),
      lookup v "team_gateway_zone" = some (.str gw) → gw ≠ "" →
      lookup v "hosted_zone" = some (.str hz) → hz ≠ "" →
      step_normalize v =
        .ok (setVar (setVar v "team_gateway_zone" (.str (normalize_zone gw)))
              "hosted_zone" (.str (normalize_zone hz)))
      ∧ pyEndsWith (normalize_zone gw) "." = true
      ∧ pyEndsWith (normalize_zone hz) "." = true
      ∧ (pyEndsWith gw "." = false → normalize_zone gw = gw ++ ".")
      ∧ (pyEndsWith gw "." = true → normalize_zone gw = gw)
      ∧ (pyEndsWith hz "." = false → normalize_zone hz = hz ++ ".")
      ∧ (pyEndsWith hz "." = true → normalize_zone hz = hz) := by
  intro v gw hz hgw hgwne hhz hhzne
  have hhz₂ : lookup (setVar v "team_gateway_zone" (.str (normalize_zone gw)))
      "hosted_zone" = some (.str hz) := by
    rw [lookup_setVar_ne _ _ _ _ (by decide)]
    exact hhz
  refine ⟨?_, normalize_zone_trailing_dot gw hgwne, normalize_zone_trailing_dot hz hhzne,
    fun h => normalize_zone_of_not_dot hgwne h,
    fun h => normalize_zone_of_dot h,
    fun h => normalize_zone_of_not_dot hhzne h,
    fun h => normalize_zone_of_dot h⟩
  rw [step_normalize, normalize_zone_var_spec hgw hgwne, exc_ok_bind,
    normalize_zone_var_spec hhz₂ hhzne]

/-- Witness for C2: a gateway zone without a trailing dot gains exactly
one, a hosted zone with one is kept. -/
theorem C2_witness :
    step_normalize
      [("team_gateway_zone", PyVal.str "gw.zone"),
       ("hosted_zone", PyVal.str "zone.com.")] =
      .ok (setVar (setVar
            [("team_gateway_zone", PyVal.str "gw.zone"),
             ("hosted_zone", PyVal.str "zone.com.")]
            "team_gateway_zone" (.str (normalize_zone "gw.zone")))
            "hosted_zone" (.str (normalize_zone "zone.com.")))
    ∧ pyEndsWith (normalize_zone "gw.zone") "." = true
    ∧ pyEndsWith (normalize_zone "zone.com.") "." = true
    ∧ (pyEndsWith "gw.zone" "." = false → normalize_zone "gw.zone" = "gw.zone" ++ ".")
    ∧ (pyEndsWith "gw.zone" "." = true → normalize_zone "gw.zone" = "gw.zone")
    ∧ (pyEndsWith "zone.com." "." = false →
        normalize_zone "zone.com." = "zone.com." ++ ".")
    ∧ (pyEndsWith "zone.com." "." = true → normalize_zone "zone.com." = "zone.com.") :=
  C2_normalize_amended
    [("team_gateway_zone", PyVal.str "gw.zone"), ("hosted_zone", PyVal.str "zone.com.")]
    "gw.zone" "zone.com." rfl (by decide) rfl (by decide)

/-- C3: security-group discovery is fatal on zero and on multiple
matches and returns the group id only for a unique match, while
encryption-key discovery is fatal only on zero matches and silently
takes the first of several. -/
theorem C3_sg_unique_kms_first :
    (∀ (rm : String → String → Bool) (pat : String) (groups : List SecGroup),
       (groups.filter (fun sg => rm pat sg.GroupName) = [] →
          detect_security_group rm pat groups =
            .error (.fatal ("Could not find security group which matches regex " ++ pat)))
       ∧ (∀ g₁ g₂ rest, groups.filter (fun sg => rm pat sg.GroupName) = g₁ :: g₂ :: rest →
            detect_security_group rm pat groups =
              .error (.fatal ("More than one security group found for regex " ++ pat)))
       ∧ (∀ g, groups.filter (fun sg => rm pat sg.GroupName) = [g] →
            detect_security_group rm pat groups = .ok g.GroupId))
    ∧ (∀ keys : List KmsKey,
        (keys.filter spiloKeyFilter = [] →
           select_kms_key keys =
             .error (.fatal ("No KMS key is available for encrypting and decrypting. "
               ++ "Ensure you have at least 1 key available.")))
        ∧ (∀ k rest, keys.filter spiloKeyFilter = k :: rest →
             select_kms_key keys = .ok k)) := by
  refine ⟨fun rm pat groups => ⟨?_, ?_, ?_⟩, fun keys => ⟨?_, ?_⟩⟩
  · intro h
    rw [detect_security_group, h]
  · intro g₁ g₂ rest h
    rw [detect_security_group, h]
  · intro g h
    rw [detect_security_group, h]
  · intro h
    rw [select_kms_key, h]
  · intro k rest h
    rw [select_kms_key, h]

/-- Witness for C3: concrete listings with zero, two and one security
group matches, and zero and two surviving encryption keys. -/
theorem C3_witness :
    detect_security_group (fun pat n => pyStartsWith n pat) "Odd"
        [⟨"app-zmon-db", "sg-z"⟩] =
      .error (.fatal "Could not find security group which matches regex Odd")
    ∧ detect_security_group (fun pat n => pyStartsWith n pat) "Odd"
        [⟨"Odd-a", "sg-1"⟩, ⟨"Odd-b", "sg-2"⟩] =
      .error (.fatal "More than one security group found for regex Odd")
    ∧ detect_security_group (fun pat n => pyStartsWith n pat) "Odd"
        [⟨"Odd-a", "sg-1"⟩, ⟨"app-zmon-db", "sg-z"⟩] = .ok "sg-1"
    ∧ select_kms_key [⟨"k1", "arn1", "billing key", []⟩] =
      .error (.fatal ("No KMS key is available for encrypting and decrypting. "
        ++ "Ensure you have at least 1 key available."))
    ∧ select_kms_key
        [⟨"k1", "arn1", "first Spilo key", []⟩, ⟨"k2", "arn2", "second spilo key", []⟩] =
      .ok ⟨"k1", "arn1", "first Spilo key", []⟩ :=
  ⟨(C3_sg_unique_kms_first.1 _ "Odd" _).1 (by decide),
   (C3_sg_unique_kms_first.1 _ "Odd" _).2.1 ⟨"Odd-a", "sg-1"⟩ ⟨"Odd-b", "sg-2"⟩ [] (by decide),
   (C3_sg_unique_kms_first.1 _ "Odd" _).2.2 ⟨"Odd-a", "sg-1"⟩ (by decide),
   (C3_sg_unique_kms_first.2 _).1 (by decide),
   (C3_sg_unique_kms_first.2 _).2 ⟨"k1", "arn1", "first Spilo key", []⟩
     [⟨"k2", "arn2", "second spilo key", []⟩] (by decide)⟩

theorem step_derive_replica_spec {v : Vars} {m : String} {r : PyVal}
    (hm : lookup v "master_dns_name" = some (.str m)) (hmne : m ≠ "")
    (hr : lookup v "replica_dns_name" = some r) (hrf : pyTruthy r = false) :
    step_derive_replica v =
      .ok (setVar v "replica_dns_name" (.str (derive_replica_name m))) := by
  have hmt : pyTruthy (.str m) = true := by simp [pyTruthy, hmne]
  simp [step_derive_replica, getItem, hm, hr, hmt, hrf, exc_ok_bind]

theorem dns_check_var_pass {v : Vars} {name s z : String}
    (hn : lookup v name = some (.str s)) (hne : s ≠ "")
    (hz : lookup v "hosted_zone" = some (.str z))
    (hchk : check_dns_name s (pyDropLast z) = true) :
    dns_check_var v name = .ok v := by
  simp [dns_check_var, getItem, hn, hz, pyTruthy, hne, hchk, exc_ok_bind]

theorem dns_check_var_fail {v : Vars} {name s z : String}
    (hn : lookup v name = some (.str s)) (hne : s ≠ "")
    (hz : lookup v "hosted_zone" = some (.str z))
    (hchk : check_dns_name s (pyDropLast z) = false) :
    dns_check_var v name =
      .error (.fatal (replaceUnderscores name ++ " should end with " ++ pyDropLast z)) := by
  simp [dns_check_var, getItem, hn, hz, pyTruthy, hne, hchk, exc_ok_bind]

theorem step_spot_spec_zero {env : Env} {v : Vars} {u sp : PyVal} {r i : String}
    (hu : lookup v "use_spot_instances" = some u) (hut : pyTruthy u = true)
    (hsp : lookup v "spot_price" = some sp) (hsz : pyEqZero sp = true)
    (htr : lookup v "team_region" = some (.str r))
    (hit : lookup v "instance_type" = some (.str i))
    (hp : env.on_demand_price r i = .ok 0) :
    step_spot env v =
      .error (.fatal "Could not get the correct on-demand price, try running without use_spot_instances") := by
  simp [step_spot, getItem, hu, hut, hsp, hsz, htr, hit, pyStr, hp, exc_ok_bind]

theorem step_spot_spec_price {env : Env} {v : Vars} {u sp : PyVal} {r i : String}
    {p : ℚ}
    (hu : lookup v "use_spot_instances" = some u) (hut : pyTruthy u = true)
    (hsp : lookup v "spot_price" = some sp) (hsz : pyEqZero sp = true)
    (htr : lookup v "team_region" = some (.str r))
    (hit : lookup v "instance_type" = some (.str i))
    (hp : env.on_demand_price r i = .ok p) (hpne : p ≠ 0) :
    step_spot env v = .ok (setVar v "spot_price" (.rat (p * 1.2))) := by
  simp [step_spot, getItem, hu, hut, hsp, hsz, htr, hit, pyStr, hp, hpne, exc_ok_bind]

/-- C4: when any required field is missing a non-empty value after
defaulting, the pipeline aborts with a single fatal error listing every
missing field name, and nothing later runs. -/
theorem C4_missing_required_collective :
    ∀ (env : Env) (v : Vars),
      (["team_name", "team_region", "team_gateway_zone", "hosted_zone"].filter
        fun k => !pyTruthy ((lookup (set_default_variables env.gen v) k).getD PyVal.none)) ≠ [] →
      gather_user_variables env v =
        .error (.fatal ("Missing values for the following variables: "
          ++ joinWith ", "
            (["team_name", "team_region", "team_gateway_zone", "hosted_zone"].filter
              fun k => !pyTruthy ((lookup (set_default_variables env.gen v) k).getD PyVal.none)))) := by
  intro env v h
  have hreq : step_required (set_default_variables env.gen v) =
      .error (.fatal ("Missing values for the following variables: "
        ++ joinWith ", "
          (["team_name", "team_region", "team_gateway_zone", "hosted_zone"].filter
            fun k => !pyTruthy ((lookup (set_default_variables env.gen v) k).getD PyVal.none)))) := by
    simp only [step_required]
    rw [if_neg]
    simpa [List.isEmpty_iff] using h
  simp only [gather_user_variables, gather_pre_spot, gather_before_derive, hreq,
    exc_err_bind]

/-- Witness for C4: the empty record is missing all four required
fields, and the message names all of them. -/
theorem C4_witness :
    gather_user_variables happyEnv [] =
      .error (.fatal ("Missing values for the following variables: "
        ++ "team_name, team_region, team_gateway_zone, hosted_zone")) :=
  C4_missing_required_collective happyEnv [] (by decide)

/-- C1: with a master DNS name and no replica name, the replica name is
derived by appending `-repl` to the first label of the master name
(`foo.team.zone.` becomes `foo-repl.team.zone.`), and the derivation
precedes the hosted-zone suffix validation: a derived replica name that
fails the suffix test aborts the whole pipeline with the replica-name
fatal error. -/
theorem C1_replica_derivation_before_validation :
    derive_replica_name "foo.team.zone." = "foo-repl.team.zone."
    ∧ (∀ (v : Vars) (m : String) (r : PyVal),
         lookup v "master_dns_name" = some (.str m) → m ≠ "" →
         lookup v "replica_dns_name" = some r → pyTruthy r = false →
         step_derive_replica v =
           .ok (setVar v "replica_dns_name" (.str (derive_replica_name m))))
    ∧ (∀ (env : Env) (v w : Vars) (m z : String) (r : PyVal),
         gather_before_derive env v = .ok w →
         lookup w "master_dns_name" = some (.str m) → m ≠ "" →
         lookup w "replica_dns_name" = some r → pyTruthy r = false →
         lookup w "hosted_zone" = some (.str z) →
         check_dns_name m (pyDropLast z) = true →
         derive_replica_name m ≠ "" →
         check_dns_name (derive_replica_name m) (pyDropLast z) = false →
         gather_user_variables env v =
           .error (.fatal ("replica dns name should end with " ++ pyDropLast z))) := by
  refine ⟨by decide, fun v m r hm hmne hr hrf =>
    step_derive_replica_spec hm hmne hr hrf, ?_⟩
  intro env v w m z r hpre hm hmne hr hrf hz hchkm hdne hchkr
  have hderive := step_derive_replica_spec hm hmne hr hrf
  have hm₂ : lookup (setVar w "replica_dns_name" (.str (derive_replica_name m)))
      "master_dns_name" = some (.str m) := by
    rw [lookup_setVar_ne _ _ _ _ (by decide)]; exact hm
  have hz₂ : lookup (setVar w "replica_dns_name" (.str (derive_replica_name m)))
      "hosted_zone" = some (.str z) := by
    rw [lookup_setVar_ne _ _ _ _ (by decide)]; exact hz
  have hr₂ : lookup (setVar w "replica_dns_name" (.str (derive_replica_name m)))
      "replica_dns_name" = some (.str (derive_replica_name m)) :=
    lookup_setVar_self _ _ _
  have hdns : step_dns_check (setVar w "replica_dns_name" (.str (derive_replica_name m))) =
      .error (.fatal ("replica dns name should end with " ++ pyDropLast z)) := by
    rw [step_dns_check, dns_check_var_pass hm₂ hmne hz₂ hchkm, exc_ok_bind,
      dns_check_var_fail hr₂ hdne hz₂ hchkr]
    rfl
  simp only [gather_user_variables, gather_pre_spot, hpre, exc_ok_bind, hderive,
    hdns, exc_err_bind]

/-- Witness for C1: a master name equal to the zone apex passes the
suffix test while its derived replica name does not, so the pipeline
fails at the replica-name validation. -/
theorem C1_witness :
    gather_user_variables happyEnv deriveVars =
      .error (.fatal ("replica dns name should end with " ++ pyDropLast "team.zone.")) :=
  C1_replica_derivation_before_validation.2.2 happyEnv deriveVars _ "team.zone"
    "team.zone." PyVal.none rfl rfl (by decide) rfl rfl rfl (by decide) (by decide)
    (by decide)

/-- C7: with spot instances requested and no explicit spot price, the
spot price becomes 1.2 times the on-demand price of the team region and
instance type, and a zero price from the pricing lookup aborts the whole
pipeline fatally. -/
theorem C7_spot_price_premium :
    (∀ (env : Env) (v : Vars) (u sp : PyVal) (r i : String) (p : ℚ),
       lookup v "use_spot_instances" = some u → pyTruthy u = true →
       lookup v "spot_price" = some sp → pyEqZero sp = true →
       lookup v "team_region" = some (.str r) →
       lookup v "instance_type" = some (.str i) →
       env.on_demand_price r i = .ok p →
       (p ≠ 0 → step_spot env v = .ok (setVar v "spot_price" (.rat (p * 1.2))))
       ∧ (p = 0 → step_spot env v =
           .error (.fatal "Could not get the correct on-demand price, try running without use_spot_instances")))
    ∧ (∀ (env : Env) (v w : Vars) (u sp : PyVal) (r i : String),
        gather_pre_spot env v = .ok w →
        lookup w "use_spot_instances" = some u → pyTruthy u = true →
        lookup w "spot_price" = some sp → pyEqZero sp = true →
        lookup w "team_region" = some (.str r) →
        lookup w "instance_type" = some (.str i) →
        env.on_demand_price r i = .ok 0 →
        gather_user_variables env v =
          .error (.fatal "Could not get the correct on-demand price, try running without use_spot_instances")) := by
  constructor
  · intro env v u sp r i p hu hut hsp hsz htr hit hp
    exact ⟨fun hpne => step_spot_spec_price hu hut hsp hsz htr hit hp hpne,
      fun hpz => step_spot_spec_zero hu hut hsp hsz htr hit (hpz ▸ hp)⟩
  · intro env v w u sp r i hpre hu hut hsp hsz htr hit hp
    rw [gather_user_variables, hpre, exc_ok_bind,
      step_spot_spec_zero hu hut hsp hsz htr hit hp]

/-- Witness for C7: a concrete run in which the pricing catalog reports
price zero fails fatally end to end. -/
theorem C7_witness :
    gather_user_variables zeroPriceEnv spotVars =
      .error (.fatal "Could not get the correct on-demand price, try running without use_spot_instances") :=
  C7_spot_price_premium.2 zeroPriceEnv spotVars _ (PyVal.bool true) (PyVal.int 0)
    "eu-west-1" "m4.large" rfl rfl rfl rfl rfl rfl rfl rfl

/-- C8: `check_dns_name` is a raw character-suffix test, not a domain
boundary test: `xzone.com` passes validation against hosted zone
`zone.com.` although it is neither the zone apex nor inside the zone,
and the pipeline completes successfully on such a record. -/
theorem C8_suffix_test_not_domain_test :
    check_dns_name "xzone.com" "zone.com" = true
    ∧ "xzone.com" ≠ "zone.com"
    ∧ check_dns_name "xzone.com" ".zone.com" = false
    ∧ ∃ w, gather_user_variables happyEnv dnsTestVars = .ok w
        ∧ lookup w "master_dns_name" = some (.str "xzone.com") := by
  exact ⟨by decide, by decide, by decide, ⟨_, rfl, rfl⟩⟩

end Spilo
